import Mathlib

/-!
Verification of the axis-remapping and virtual-device-synthesis engine of
`hid-impostor` (src/main.rs) and its hexadecimal dump utilities (src/hex.rs),
as a shallow embedding in Lean 4.

Conventions of the embedding:
* evdev's `AbsoluteAxisCode` is a `u16` newtype; we model it as a structure
  over `Nat` (all codes used are far below 2^16, and the program never does
  arithmetic on codes, only equality and construction).
* `i32` axis values are modelled as `Int` (the program only adds/subtracts
  values that stay inside the axis range, so no wraparound is reachable).
* `HashMap` tables are modelled as association lists together with a lookup
  that returns the last binding for a key (matching `HashMap` insertion
  overwrite semantics of `collect`), or directly as `Option`-valued functions
  where the source builds the table with unique keys.
* Fallible Rust functions returning `anyhow::Result` are modelled with
  `Except ParseError` / `Option`; a `panic!`/`unwrap` becomes `none`.
* `println!` logging is pure observability and is not modelled.
-/

/-- Model of evdev's `AbsoluteAxisCode`, a newtype over `u16`.
The source reads the underlying number as `code.0`; here it is `.code`. -/
structure AbsoluteAxisCode where
  code : Nat
deriving DecidableEq, Repr

/-- src/main.rs lines 21-25: `struct Mapping { to_code: u16, invert: bool }`. -/
structure Mapping where
  to_code : Nat
  invert : Bool
deriving DecidableEq, Repr

namespace Mapping

/-- src/main.rs lines 28-33: `Mapping::from_abs` — direct mapping, no inversion. -/
def from_abs (code : AbsoluteAxisCode) : Mapping :=
  { to_code := code.code, invert := false }

/-- src/main.rs lines 35-40: `Mapping::from_abs_inv` — inverted mapping. -/
def from_abs_inv (code : AbsoluteAxisCode) : Mapping :=
  { to_code := code.code, invert := true }

end Mapping

/-- The error cases of the mapping parser.  The source uses `anyhow` string
errors: `malformedRule` is `bail!("cannot parse mapping")` (line 167),
`malformedTarget` is `bail!("cannot parse right operand")` (line 163), and
`unknownAxis` is the `FromStr` failure of `AbsoluteAxisCode` propagated
through `?` (lines 153, 156, 160). -/
inductive ParseError where
  | malformedRule
  | malformedTarget
  | unknownAxis (name : String)
deriving DecidableEq, Repr

/-- Modelled from the spec: the canonical axis-name table of the external
evdev crate's `FromStr for AbsoluteAxisCode` (spec section 4.1: an Axis Code
"round-trips through a canonical string name"; the numeric codes are the
Linux input-event codes the evdev crate wraps).  Only the axes the program
and spec mention are listed; the real table is a superset, which does not
affect any claim (all claims use axes from this list or strings that are not
axis names in either table). -/
def axisNames : List (String × Nat) :=
  [("ABS_X", 0), ("ABS_Y", 1), ("ABS_Z", 2),
   ("ABS_RX", 3), ("ABS_RY", 4), ("ABS_RZ", 5),
   ("ABS_THROTTLE", 6), ("ABS_RUDDER", 7), ("ABS_WHEEL", 8),
   ("ABS_GAS", 9), ("ABS_BRAKE", 10),
   ("ABS_HAT0X", 16), ("ABS_HAT0Y", 17),
   ("ABS_HAT1X", 18), ("ABS_HAT1Y", 19)]

/-- Modelled from the spec: `<AbsoluteAxisCode as FromStr>::from_str` of the
external evdev crate — resolve a canonical name against `axisNames`, failing
with a parse error on any other string (spec section 4.1). -/
def axisFromStr (s : String) : Except ParseError AbsoluteAxisCode :=
  match axisNames.find? (fun p => p.1 == s) with
  | some p => Except.ok ⟨p.2⟩
  | none => Except.error (ParseError.unknownAxis s)

/-- Rust's `str::split` with a single-character separator, on `List Char`:
splits on every occurrence of `sep`; the empty string yields `[[]]` (one
empty token), exactly as `"".split(sep)` yields `[""]` in Rust. -/
def splitChar (sep : Char) : List Char → List (List Char)
  | [] => [[]]
  | c :: cs =>
    if c = sep then [] :: splitChar sep cs
    else
      match splitChar sep cs with
      | t :: ts => (c :: t) :: ts
      | [] => [[c]]

/-- Rust's `input.split(sep).collect::<Vec<_>>()` for a one-character
separator, on `String`. -/
def rustSplit (sep : Char) (s : String) : List String :=
  (splitChar sep s.data).map String.mk

/-- src/main.rs lines 154-164: the inner `match r_op.split("-")` of
`parse_mapping`, factored out under its own name.  Exactly one token is a
direct mapping; exactly two tokens (the first one ignored by the wildcard
pattern `[_, r_op]`) is an inverted mapping to the second token's axis; any
other token count bails with "cannot parse right operand". -/
def parse_target (r_op : String) : Except ParseError Mapping :=
  match rustSplit '-' r_op with
  | [r] => do
    let rc ← axisFromStr r
    pure (Mapping.from_abs rc)
  | [_, r] => do
    let rc ← axisFromStr r
    pure (Mapping.from_abs_inv rc)
  | _ => Except.error ParseError.malformedTarget

/-- src/main.rs lines 150-169: `parse_mapping` — split the rule on `=`;
exactly two tokens resolve to (source axis, target mapping); any other
count bails with "cannot parse mapping". -/
def parse_mapping (input : String) : Except ParseError (AbsoluteAxisCode × Mapping) :=
  match rustSplit '=' input with
  | [l_op, r_op] => do
    let l ← axisFromStr l_op
    let mapping ← parse_target r_op
    pure (l, mapping)
  | _ => Except.error ParseError.malformedRule

/-- src/main.rs lines 171-175: `parse_mappings` — split the rule string on
`,` and parse each fragment, short-circuiting on the first error.  The
source collects into a `HashMap`; we keep the binding sequence and give the
`HashMap` lookup (with its later-binding-overwrites semantics) as
`mappingsGet` below. -/
def parse_mappings (input : String) :
    Except ParseError (List (AbsoluteAxisCode × Mapping)) :=
  (rustSplit ',' input).mapM parse_mapping

/-- Model of `HashMap::get` on the map collected from a binding sequence:
the last binding for a key wins (later `insert`s overwrite earlier ones). -/
def mappingsGet (l : List (AbsoluteAxisCode × Mapping)) (c : AbsoluteAxisCode) :
    Option Mapping :=
  (l.reverse.find? (fun p => decide (p.1 = c))).map Prod.snd

/-- Model of evdev's `AbsInfo` (all fields `i32` in the source); field order
follows `AbsInfo::new(value, minimum, maximum, fuzz, flat, resolution)`. -/
structure AbsInfo where
  value : Int
  minimum : Int
  maximum : Int
  fuzz : Int
  flat : Int
  resolution : Int
deriving DecidableEq, Repr

/-- src/main.rs lines 128-138: `abs_infos` — the Axis Capability Table built
from the physical device's advertised `get_absinfo` (modelled as an
`Option`-valued function, since the device reports at most one `AbsInfo` per
axis code): copy `{value, minimum, maximum, resolution}` and zero
`{fuzz, flat}`. -/
def abs_infos (dev : AbsoluteAxisCode → Option AbsInfo) :
    AbsoluteAxisCode → Option AbsInfo :=
  fun code =>
    (dev code).map fun i =>
      { value := i.value, minimum := i.minimum, maximum := i.maximum,
        fuzz := 0, flat := 0, resolution := i.resolution }

/-- Model of evdev's `UinputAbsSetup::new(code, info)`. -/
structure UinputAbsSetup where
  code : AbsoluteAxisCode
  info : AbsInfo
deriving DecidableEq, Repr

/-- src/main.rs lines 140-148: `abs_setup` — look the axis up in the (already
fuzz/flat-zeroed) table; absent axes get the documented default
`AbsInfo::new(axis_max / 2, 0, axis_max, 0, 0, 1)` with `axis_max = 256`. -/
def abs_setup (code : AbsoluteAxisCode)
    (infos : AbsoluteAxisCode → Option AbsInfo) : UinputAbsSetup :=
  let axis_max : Int := 256
  let default_info : AbsInfo :=
    { value := axis_max / 2, minimum := 0, maximum := axis_max,
      fuzz := 0, flat := 0, resolution := 1 }
  { code := code, info := (infos code).getD default_info }

/-- src/main.rs lines 116-123: the fixed set of eight output axes the
virtual device declares, in declaration order (codes per `axisNames`). -/
def outputAxes : List AbsoluteAxisCode :=
  [⟨0⟩, ⟨1⟩, ⟨2⟩, ⟨3⟩, ⟨4⟩, ⟨5⟩, ⟨16⟩, ⟨17⟩]

/-- src/main.rs lines 111-123 (axis part of `make_virt_device`): the axis
capability declaration handed to the virtual sink — one `abs_setup` per
output axis over the table `abs_infos(device)`. -/
def make_virt_device_axes (dev : AbsoluteAxisCode → Option AbsInfo) :
    List UinputAbsSetup :=
  outputAxes.map fun c => abs_setup c (abs_infos dev)

/-- The event kinds the loop body destructures (src/main.rs lines 61-87):
synchronization markers, key/button events `(code, value)`, absolute-axis
events `(code, value)`, and the catch-all `_` arm. -/
inductive InputEvent where
  | synchronization
  | key (code : Nat) (value : Int)
  | absoluteAxis (code : AbsoluteAxisCode) (value : Int)
  | other
deriving DecidableEq, Repr

/-- The events given to `virt_device.emit`: the source constructs only
`AbsoluteAxisEvent::new(AbsoluteAxisCode(mapping.to_code), value)`
(src/main.rs line 80), so an output event is an axis code and a value. -/
structure OutputEvent where
  code : AbsoluteAxisCode
  value : Int
deriving DecidableEq, Repr

/-- src/main.rs lines 74-78: the inversion arm of the value computation,
`abs_info.minimum() + (abs_info.maximum() - value)`. -/
def invertValue (info : AbsInfo) (v : Int) : Int :=
  info.minimum + (info.maximum - v)

/-- src/main.rs lines 61-87: the loop body for one event — the list of
events this event causes to be emitted to the virtual sink.
Synchronization is skipped; key events are only printed (no emission);
an absolute-axis event is emitted only when its code is in the capability
table, translated through the resolved mapping (identity default via
`unwrap_or(Mapping::from_abs(code))`); the `_` arm only prints. -/
def translateEvent (absInfos : AbsoluteAxisCode → Option AbsInfo)
    (mappings : List (AbsoluteAxisCode × Mapping)) :
    InputEvent → List OutputEvent
  | InputEvent.synchronization => []
  | InputEvent.key _ _ => []
  | InputEvent.absoluteAxis code value =>
    match absInfos code with
    | none => []
    | some abs_info =>
      let mapping := (mappingsGet mappings code).getD (Mapping.from_abs code)
      let value := if mapping.invert then invertValue abs_info value else value
      [{ code := ⟨mapping.to_code⟩, value := value }]
  | InputEvent.other => []

/-- src/main.rs lines 60-88: one iteration of the outer `loop` over a
successfully fetched batch — events are processed in order and each event's
emissions are appended in place. -/
def translate_batch (absInfos : AbsoluteAxisCode → Option AbsInfo)
    (mappings : List (AbsoluteAxisCode × Mapping))
    (events : List InputEvent) : List OutputEvent :=
  events.flatMap (translateEvent absInfos mappings)

/-- src/main.rs lines 59-89: the event loop over a finite trace of poll
results.  `device.fetch_events()?` propagates a fetch failure out of `main`
(the `?` on line 60), so an erroneous poll short-circuits the whole loop;
a successful poll contributes its batch's translation and the loop
continues. -/
def run_loop (absInfos : AbsoluteAxisCode → Option AbsInfo)
    (mappings : List (AbsoluteAxisCode × Mapping)) :
    List (Except String (List InputEvent)) → Except String (List OutputEvent)
  | [] => Except.ok []
  | poll :: rest => do
    let evs ← poll
    let out ← run_loop absInfos mappings rest
    pure (translate_batch absInfos mappings evs ++ out)

/-- The externally visible stages of `main` (src/main.rs lines 43-59), in
order: canonicalize the CLI path (line 46), open the physical device
(line 49), create the virtual device (line 52), parse the mapping string
(line 57), build the capability table (line 58), enter the event loop
(line 59). -/
inductive StartupStep where
  | canonicalizePath
  | openDevice
  | createVirtualDevice
  | parseMappingsStep
  | buildAbsInfos
  | eventLoop
deriving DecidableEq, Repr

/-- src/main.rs lines 43-59: the sequence of stages `main` performs for a
given mapping string, assuming the path resolves and both devices succeed
(the resource-error paths are irrelevant to the configuration-error claim).
`parse_mappings` runs at line 57, after `Device::open` (line 49) and
`make_virt_device` (line 52); on a parse error the `?`+`context("")` makes
`main` return the error there, before `abs_infos` and the loop. -/
def main_steps (mappings : String) : List StartupStep :=
  [StartupStep.canonicalizePath, StartupStep.openDevice,
   StartupStep.createVirtualDevice, StartupStep.parseMappingsStep] ++
  match parse_mappings mappings with
  | Except.error _ => []
  | Except.ok _ => [StartupStep.buildAbsInfos, StartupStep.eventLoop]

/-- The lowercase hexadecimal digit for `n < 16` — the characters
`format!("{:02x}", c)` produces. -/
def hexDigitChar (n : Nat) : Char :=
  if n < 10 then Char.ofNat (Char.toNat '0' + n)
  else Char.ofNat (Char.toNat 'a' + n - 10)

/-- The rendering `format!("{:02x}", c)` produces for a byte `c < 256`:
exactly two lowercase hex digits, high nibble first, zero-padded. -/
def hexByte (b : Nat) : List Char :=
  [hexDigitChar (b / 16), hexDigitChar (b % 16)]

/-- src/hex.rs lines 2-4: `hex` — concatenate the two-digit rendering of
each byte.  Bytes are modelled as `Nat` constrained to `< 256` where a
theorem needs the `u8` range. -/
def hex (bs : List Nat) : List Char :=
  bs.flatMap hexByte

/-- The numeric value of a radix-16 digit as `u8::from_str_radix` accepts it
(`0-9`, `a-f`, `A-F`); any other character makes the parse fail.
(`from_str_radix` also accepts a leading sign character, which can never
occur in the output of `hex` and is immaterial to the round-trip.) -/
def hexDigitVal (c : Char) : Option Nat :=
  if '0' ≤ c ∧ c ≤ '9' then some (c.toNat - Char.toNat '0')
  else if 'a' ≤ c ∧ c ≤ 'f' then some (c.toNat - Char.toNat 'a' + 10)
  else if 'A' ≤ c ∧ c ≤ 'F' then some (c.toNat - Char.toNat 'A' + 10)
  else none

/-- src/hex.rs lines 13-18: `from_hex` — walk the string two characters at a
time, parsing each pair with `u8::from_str_radix(.., 16).unwrap()`.  The
`unwrap` panic (non-digit pair) and the out-of-bounds slice on an odd-length
tail are modelled as `none`. -/
def from_hex : List Char → Option (List Nat)
  | [] => some []
  | c1 :: c2 :: rest => do
    let h ← hexDigitVal c1
    let l ← hexDigitVal c2
    let bs ← from_hex rest
    pure ((h * 16 + l) :: bs)
  | [_] => none

/-! ## Theorems about the claims -/

/-- C1, counterexample: the claim says a batch of button events produces the
corresponding emitted button events at the sink; in the code the `Key` arm
(src/main.rs lines 63-65) only prints, so a batch consisting of one pressed
BTN_SOUTH (code 304) event emits zero events — not the corresponding button
event. -/
theorem key_event_batch_emits_nothing :
    translate_batch (fun _ => none) [] [InputEvent.key 304 1] = [] := rfl

/-- C1, amended: key/button events are logged for observability only and are
never emitted to the virtual sink — every key event, under every capability
table and rule set, contributes zero output events. -/
theorem key_events_never_emitted
    (absInfos : AbsoluteAxisCode → Option AbsInfo)
    (mappings : List (AbsoluteAxisCode × Mapping)) (c : Nat) (v : Int) :
    translateEvent absInfos mappings (InputEvent.key c v) = [] := rfl

/-- C2, counterexample: the claim says a failed poll is logged and the loop
continues to the next poll; in the code `device.fetch_events()?`
(src/main.rs line 60) propagates the error out of `main`, so a trace with a
failing first poll terminates with that error and the following successful
poll (whose ABS_X event would have been emitted) is never processed. -/
theorem read_error_terminates_loop_cex :
    run_loop (fun _ => some { value := 0, minimum := 0, maximum := 255, fuzz := 0, flat := 0, resolution := 1 }) []
      [Except.error "read failed", Except.ok [InputEvent.absoluteAxis ⟨0⟩ 5]]
      = Except.error "read failed" := rfl

/-- C2, amended: a poll failure is fatal — `?` propagates it out of the event
loop immediately, so any trace beginning with a failed poll yields that error
and the remaining polls are never reached. -/
theorem read_error_propagates
    (absInfos : AbsoluteAxisCode → Option AbsInfo)
    (mappings : List (AbsoluteAxisCode × Mapping)) (e : String)
    (rest : List (Except String (List InputEvent))) :
    run_loop absInfos mappings (Except.error e :: rest) = Except.error e := rfl

/-- C3, counterexample: the claim says a malformed mapping string makes the
process exit without opening any physical device and without creating the
virtual device; in the code `parse_mappings` runs at src/main.rs line 57,
after `Device::open` (line 49) and `make_virt_device` (line 52), so for the
malformed string "ABS_X-ABS_Y" the startup trace contains both device steps
even though parsing fails. -/
theorem parse_error_after_device_open_cex :
    parse_mappings "ABS_X-ABS_Y" = Except.error ParseError.malformedRule ∧
    StartupStep.openDevice ∈ main_steps "ABS_X-ABS_Y" ∧
    StartupStep.createVirtualDevice ∈ main_steps "ABS_X-ABS_Y" :=
  ⟨rfl, by decide, by decide⟩

/-- C3, amended: a malformed mapping string is detected at startup before
the capability table is built and before the event loop is entered — but
after the physical device has been opened and the virtual device created:
on any parse error the startup trace is exactly canonicalize, open, create,
parse, and stops there. -/
theorem parse_error_exits_before_loop (s : String) (e : ParseError)
    (h : parse_mappings s = Except.error e) :
    main_steps s =
      [StartupStep.canonicalizePath, StartupStep.openDevice,
       StartupStep.createVirtualDevice, StartupStep.parseMappingsStep] := by
  unfold main_steps
  rw [h]
  rfl

/-- C3, witness for `parse_error_exits_before_loop` at the spec's own
malformed example "ABS_X-ABS_Y". -/
theorem parse_error_exits_before_loop_witness :
    main_steps "ABS_X-ABS_Y" =
      [StartupStep.canonicalizePath, StartupStep.openDevice,
       StartupStep.createVirtualDevice, StartupStep.parseMappingsStep] :=
  parse_error_exits_before_loop "ABS_X-ABS_Y" ParseError.malformedRule rfl

/-- C4, counterexample: the claim says parsing the empty rule string succeeds
with an empty Rule Set; in the code `"".split(",")` yields one empty
fragment, whose split on `=` has one token, so `parse_mappings("")` fails
with the malformed-rule error (src/main.rs lines 167, 171-175). -/
theorem parse_empty_fails_cex :
    parse_mappings "" = Except.error ParseError.malformedRule := rfl

/-- C4, amended: parsing the empty rule string fails with a malformed-rule
error (it does not yield an empty Rule Set); separately, under an empty Rule
Set every axis would indeed resolve to the identity mapping (itself,
uninverted), via the `unwrap_or(Mapping::from_abs(code))` default. -/
theorem parse_empty_malformed_and_empty_set_identity :
    parse_mappings "" = Except.error ParseError.malformedRule ∧
    ∀ c : AbsoluteAxisCode,
      (mappingsGet [] c).getD (Mapping.from_abs c) = Mapping.from_abs c :=
  ⟨rfl, fun _ => rfl⟩

/-- C5, counterexample: the claim says a target-spec splitting into two
tokens with a non-empty first token fails with a malformed-target error; in
the code the two-token arm is the wildcard pattern `[_, r_op]`
(src/main.rs line 159), which ignores the first token entirely, so
"ABS_X=X-ABS_Y" parses successfully to an inverted mapping onto ABS_Y. -/
theorem nonempty_first_token_accepted_cex :
    parse_mapping "ABS_X=X-ABS_Y" =
      Except.ok (⟨0⟩, { to_code := 1, invert := true }) := rfl

/-- C5, amended: splitting the target-spec on `-` into exactly one token
yields a direct mapping to that token's axis; exactly two tokens yield an
inverted mapping to the second token's axis regardless of the first token's
content (the first token is not required to be empty); three or more tokens
fail with the malformed-target error. -/
theorem parse_target_split_cases :
    (∀ t r, rustSplit '-' t = [r] →
      parse_target t = (do
        let rc ← axisFromStr r
        pure (Mapping.from_abs rc))) ∧
    (∀ t x r, rustSplit '-' t = [x, r] →
      parse_target t = (do
        let rc ← axisFromStr r
        pure (Mapping.from_abs_inv rc))) ∧
    (∀ t, 3 ≤ (rustSplit '-' t).length →
      parse_target t = Except.error ParseError.malformedTarget) := by
  refine ⟨?_, ?_, ?_⟩
  · intro t r h
    unfold parse_target
    rw [h]
  · intro t x r h
    unfold parse_target
    rw [h]
  · intro t h
    rcases hs : rustSplit '-' t with _ | ⟨a, rest⟩
    · rw [hs] at h; simp at h
    · rcases rest with _ | ⟨b, rest2⟩
      · rw [hs] at h; simp at h
      · rcases rest2 with _ | ⟨c, rest3⟩
        · rw [hs] at h; simp at h
        · unfold parse_target
          rw [hs]

/-- C5, witness for `parse_target_split_cases`, one instantiation per
conjunct: a one-token target, a two-token target with empty first token,
and a three-token target. -/
theorem parse_target_split_cases_witness :
    parse_target "ABS_RX" = Except.ok (Mapping.from_abs ⟨3⟩) ∧
    parse_target "-ABS_RY" = Except.ok (Mapping.from_abs_inv ⟨4⟩) ∧
    parse_target "a-b-c" = Except.error ParseError.malformedTarget :=
  ⟨(parse_target_split_cases.1 "ABS_RX" "ABS_RX" rfl).trans rfl,
   (parse_target_split_cases.2.1 "-ABS_RY" "" "ABS_RY" rfl).trans rfl,
   parse_target_split_cases.2.2 "a-b-c" (by decide)⟩

/-- C6: an absolute-axis event whose code is present in the capability table
is emitted under the resolved mapping's target code with value
`info.minimum + (info.maximum - raw)` when the mapping inverts, and the raw
value unchanged otherwise (src/main.rs lines 70-81). -/
theorem axis_event_translation
    (absInfos : AbsoluteAxisCode → Option AbsInfo)
    (mappings : List (AbsoluteAxisCode × Mapping))
    (code : AbsoluteAxisCode) (v : Int) (info : AbsInfo) (m : Mapping)
    (hinfo : absInfos code = some info)
    (hmap : (mappingsGet mappings code).getD (Mapping.from_abs code) = m) :
    translateEvent absInfos mappings (InputEvent.absoluteAxis code v) =
      [{ code := ⟨m.to_code⟩,
         value := if m.invert then info.minimum + (info.maximum - v) else v }] := by
  simp only [translateEvent]
  rw [hinfo]
  simp [hmap, invertValue]

/-- C6, witness: the spec's own example — table entry for ABS_X with
`{min=0, max=255}`, rule string "ABS_X=-ABS_X", raw value 10 emits value
245 on ABS_X. -/
theorem axis_event_translation_witness :
    parse_mappings "ABS_X=-ABS_X" =
      Except.ok [(⟨0⟩, Mapping.from_abs_inv ⟨0⟩)] ∧
    translateEvent
      (fun c => if c = ⟨0⟩ then
        some { value := 128, minimum := 0, maximum := 255,
               fuzz := 0, flat := 0, resolution := 1 } else none)
      [(⟨0⟩, Mapping.from_abs_inv ⟨0⟩)]
      (InputEvent.absoluteAxis ⟨0⟩ 10) =
      [{ code := ⟨0⟩, value := 245 }] := by
  refine ⟨rfl, ?_⟩
  have h := axis_event_translation
    (fun c => if c = ⟨0⟩ then
      some { value := 128, minimum := 0, maximum := 255,
             fuzz := 0, flat := 0, resolution := 1 } else none)
    [(⟨0⟩, Mapping.from_abs_inv ⟨0⟩)] ⟨0⟩ 10
    { value := 128, minimum := 0, maximum := 255,
      fuzz := 0, flat := 0, resolution := 1 }
    (Mapping.from_abs_inv ⟨0⟩) rfl rfl
  rw [h]
  decide

/-- C7: for every axis in the fixed eight-axis output set, the synthesized
setup copies `{value, minimum, maximum, resolution}` from the physical table
and zeroes `{fuzz, flat}` when the axis is present (the zeroing happens in
`abs_infos`, src/main.rs line 134), and is exactly
`{value=128, minimum=0, maximum=256, fuzz=0, flat=0, resolution=1}` when the
axis is absent (src/main.rs lines 144-146). -/
theorem abs_setup_calibration
    (dev : AbsoluteAxisCode → Option AbsInfo) (code : AbsoluteAxisCode)
    (hmem : code ∈ outputAxes) :
    (∀ i, dev code = some i →
      abs_setup code (abs_infos dev) =
        { code := code,
          info := { value := i.value, minimum := i.minimum, maximum := i.maximum,
                    fuzz := 0, flat := 0, resolution := i.resolution } }) ∧
    (dev code = none →
      abs_setup code (abs_infos dev) =
        { code := code,
          info := { value := 128, minimum := 0, maximum := 256,
                    fuzz := 0, flat := 0, resolution := 1 } }) := by
  constructor
  · intro i hi
    simp [abs_setup, abs_infos, hi]
  · intro hn
    simp [abs_setup, abs_infos, hn]

/-- C7, witness for `abs_setup_calibration`: a device table containing only
ABS_X (with nonzero fuzz/flat, which get zeroed) — ABS_X is copied, the
absent ABS_Y gets the documented default. -/
theorem abs_setup_calibration_witness :
    abs_setup ⟨0⟩ (abs_infos (fun c => if c = ⟨0⟩ then
        some { value := 10, minimum := -5, maximum := 300,
               fuzz := 7, flat := 8, resolution := 2 } else none)) =
      { code := ⟨0⟩,
        info := { value := 10, minimum := -5, maximum := 300,
                  fuzz := 0, flat := 0, resolution := 2 } } ∧
    abs_setup ⟨1⟩ (abs_infos (fun c => if c = ⟨0⟩ then
        some { value := 10, minimum := -5, maximum := 300,
               fuzz := 7, flat := 8, resolution := 2 } else none)) =
      { code := ⟨1⟩,
        info := { value := 128, minimum := 0, maximum := 256,
                  fuzz := 0, flat := 0, resolution := 1 } } :=
  ⟨(abs_setup_calibration _ ⟨0⟩ (by decide)).1 _ rfl,
   (abs_setup_calibration _ ⟨1⟩ (by decide)).2 rfl⟩

/-- C8: the inversion formula `v ↦ min + (max - v)` of src/main.rs line 75 is
an involution on `[min, max]` — applying it twice returns the original
value. -/
theorem invert_involution (info : AbsInfo) (v : Int)
    (h1 : info.minimum ≤ v) (h2 : v ≤ info.maximum) :
    invertValue info (invertValue info v) = v := by
  unfold invertValue
  ring

/-- C8, witness for `invert_involution` at `{min=0, max=255}`, `v = 10`. -/
theorem invert_involution_witness :
    invertValue
      { value := 128, minimum := 0, maximum := 255,
        fuzz := 0, flat := 0, resolution := 1 }
      (invertValue
        { value := 128, minimum := 0, maximum := 255,
          fuzz := 0, flat := 0, resolution := 1 } 10) = 10 :=
  invert_involution
    { value := 128, minimum := 0, maximum := 255,
      fuzz := 0, flat := 0, resolution := 1 } 10 (by decide) (by decide)

/-- C9: an absolute-axis event whose code has no entry in the capability
table is silently discarded — the `if let Some(abs_info)` at src/main.rs
line 67 has no else branch, so zero events are emitted and no error is
raised (the translation has no failure path for this case). -/
theorem unknown_axis_dropped
    (absInfos : AbsoluteAxisCode → Option AbsInfo)
    (mappings : List (AbsoluteAxisCode × Mapping))
    (code : AbsoluteAxisCode) (v : Int)
    (h : absInfos code = none) :
    translateEvent absInfos mappings (InputEvent.absoluteAxis code v) = [] := by
  simp [translateEvent, h]

/-- C9, witness for `unknown_axis_dropped`: an ABS_THROTTLE (code 6) event
against an empty capability table. -/
theorem unknown_axis_dropped_witness :
    translateEvent (fun _ => none) [] (InputEvent.absoluteAxis ⟨6⟩ 42) = [] :=
  unknown_axis_dropped (fun _ => none) [] ⟨6⟩ 42 rfl

/-- Decoding any of the sixteen digit characters `hexDigitChar` can produce
recovers the digit's value. -/
theorem hexDigitVal_hexDigitChar : ∀ n, n < 16 →
    hexDigitVal (hexDigitChar n) = some n := by decide

/-- C10: the hex round-trip — decoding the unpadded hexadecimal rendering of
any byte sequence returns the original sequence,
`from_hex(hex(bs)) = bs` (src/hex.rs: `hex` always emits two valid lowercase
digits per byte, so `from_hex` never hits its panic paths on such input). -/
theorem hex_round_trip (bs : List Nat) (h : ∀ b ∈ bs, b < 256) :
    from_hex (hex bs) = some bs := by
  induction bs with
  | nil => rfl
  | cons b rest ih =>
    have hb : b < 256 := h b (List.mem_cons_self b rest)
    have hrest : ∀ x ∈ rest, x < 256 := fun x hx => h x (List.mem_cons_of_mem b hx)
    have h1 : b / 16 < 16 := by omega
    have h2 : b % 16 < 16 := by omega
    have key : hex (b :: rest) =
        hexDigitChar (b / 16) :: hexDigitChar (b % 16) :: hex rest := by
      simp [hex, hexByte]
    rw [key]
    simp only [from_hex, hexDigitVal_hexDigitChar _ h1,
      hexDigitVal_hexDigitChar _ h2, ih hrest, Option.bind_eq_bind,
      Option.some_bind]
    have hdm : b / 16 * 16 + b % 16 = b := by omega
    rw [hdm]
    rfl

/-- C10, witness for `hex_round_trip` at the byte sequence `[0, 171, 255]`
(rendered "00abff"). -/
theorem hex_round_trip_witness :
    from_hex (hex [0, 171, 255]) = some [0, 171, 255] :=
  hex_round_trip [0, 171, 255] (by decide)
